import Mathlib

/-!
Verification of the retirement-projector engine (`retirement-projector.py`).

The engine's core is embedded shallowly: amounts and rates are modelled as
exact rationals (`ℚ`) in place of Python floats, Python lists as `List`,
Python dicts as association lists with in-place-overwriting insertion
(matching CPython's key-order semantics).  All definitions below are
translated from the source file; the one exception is marked as modelled
from the specification's words for a refinement comparison.
-/

/-- An accumulation portfolio component, the dicts held in
`st.session_state.portfolios`: `{"name", "initial", "annual", "rate"}`. -/
structure Portfolio where
  name : String
  initial : ℚ
  annual : ℚ
  rate : ℚ
deriving Repr, DecidableEq

/-- A retirement asset, the dicts held in
`st.session_state.retirement_portfolios`: `{"name", "allocation", "rate"}`. -/
structure RetirementAsset where
  name : String
  allocation : ℚ
  rate : ℚ
deriving Repr, DecidableEq

/-- Python's `not s.strip()`: true when the string is empty or all
whitespace (a blank name).  Stated on the character list of the string. -/
def pyBlank (s : String) : Bool :=
  s.data.all Char.isWhitespace

/-- The per-component checks of `validate_portfolios`, mirroring its three
early-return tests. -/
def portfolioOk (p : Portfolio) : Bool :=
  if pyBlank p.name then false
  else if p.initial < 0 ∨ p.annual < 0 ∨ p.rate < 0 then false
  else if p.initial = 0 ∧ p.annual = 0 then false
  else true

/-- `validate_portfolios`: loops over the components and returns `False` on
the first failing check, `True` after the loop (hence `True` on the empty
list — the loop body never runs). -/
def validate_portfolios (ps : List Portfolio) : Bool :=
  ps.all portfolioOk

/-- The per-asset checks of `validate_retirement_portfolios`, mirroring its
early-return tests inside the `for` loop. -/
def retirementAssetOk (p : RetirementAsset) : Bool :=
  if pyBlank p.name then false
  else if p.allocation < 0 ∨ p.rate < 0 then false
  else if p.allocation = 0 then false
  else true

/-- `validate_retirement_portfolios`: empty set fails; then the total
allocation must be within 0.01 of 1.0; then each asset is checked. -/
def validate_retirement_portfolios (ps : List RetirementAsset) : Bool :=
  if ps.isEmpty then false
  else if |(ps.map (fun p => p.allocation)).sum - 1| > 1/100 then false
  else ps.all retirementAssetOk

/-- The inner loop of `calculate_portfolio_growth` for one component:
starting from `initial`, each iteration does
`value = (value + annual) * (1 + rate)`. -/
def iterGrow (p : Portfolio) : Nat → ℚ
  | 0 => p.initial
  | y + 1 => (iterGrow p y + p.annual) * (1 + p.rate)

/-- One component's value at a given year, mirroring the
`if year == 0: value = initial / else: run the loop year times` branch of
`calculate_portfolio_growth`. -/
def componentValue (p : Portfolio) (year : Nat) : ℚ :=
  if year = 0 then p.initial else iterGrow p year

/-- One row of the growth DataFrame: the year, the per-component values in
component order, and the accumulated `Total`. -/
structure ProjectionPoint where
  year : Nat
  values : List ℚ
  total : ℚ
deriving Repr, DecidableEq

/-- `calculate_portfolio_growth`: one `ProjectionPoint` per year in
`0..years` (inclusive); `Total` is accumulated as the sum of the
per-component values of that year. -/
def calculate_portfolio_growth (ps : List Portfolio) (years : Nat) :
    List ProjectionPoint :=
  (List.range (years + 1)).map (fun year =>
    let vals := ps.map (fun p => componentValue p year)
    { year := year, values := vals, total := vals.sum })

/-- The unclamped running balance of `calculate_withdrawal_scenarios`:
`current_value` starts at the final portfolio value and each retirement
year does `current_value = (current_value - annual_withdrawal) *
(1 + blended_growth_rate)`.  The source never clamps this variable; only
the value appended to the trajectory list is clamped. -/
def rawValue (s w r : ℚ) : Nat → ℚ
  | 0 => s
  | y + 1 => (rawValue s w r y - w) * (1 + r)

/-- The `portfolio_values` trajectory list: year 0 appends the starting
value unclamped, each later year appends `max 0 current_value`. -/
def trajectory (s w r : ℚ) (years : Nat) : List ℚ :=
  (List.range (years + 1)).map (fun year =>
    if year = 0 then s else max 0 (rawValue s w r year))

/-- The per-scenario result dict of `calculate_withdrawal_scenarios`. -/
structure WithdrawalScenario where
  annual_withdrawal : ℚ
  monthly_withdrawal : ℚ
  portfolio_values : List ℚ
  final_value : ℚ
  blended_rate : ℚ
deriving Repr, DecidableEq

/-- `blended_growth_rate = sum(p["allocation"] * p["rate"] for p in
retirement_portfolios)`, computed once per call before the rate loop. -/
def blendedRate (rps : List RetirementAsset) : ℚ :=
  (rps.map (fun p => p.allocation * p.rate)).sum

/-- Round to the nearest integer, ties to even — the rounding Python's
fixed-precision formatting applies to the digit string. -/
def roundHalfEven (q : ℚ) : ℤ :=
  let fl := ⌊q⌋
  let frac := q - fl
  if frac < 1/2 then fl
  else if frac > 1/2 then fl + 1
  else if fl % 2 = 0 then fl else fl + 1

/-- Python's `f"{rate:.1%}"`: the rate times 100, rendered with exactly one
decimal digit, with a `%` sign appended (`0.04 ↦ "4.0%"`). -/
def fmtPercent1 (rate : ℚ) : String :=
  let n := roundHalfEven (rate * 1000)
  let m := n.natAbs
  let digits := toString (m / 10) ++ "." ++ toString (m % 10)
  (if rate < 0 then "-" else "") ++ digits ++ "%"

/-- CPython dict assignment `d[k] = v` on an association list: an existing
key keeps its position and gets the new value, a new key is appended. -/
def dictInsert {α : Type} (k : String) (v : α) :
    List (String × α) → List (String × α)
  | [] => [(k, v)]
  | (k', v') :: rest =>
    if k' = k then (k, v) :: rest else (k', v') :: dictInsert k v rest

/-- The scenario dict built for one withdrawal rate inside the loop of
`calculate_withdrawal_scenarios` (`blended` is the precomputed blended
growth rate; `final_value` is `portfolio_values[-1]`, the trajectory's
last element — the trajectory always has `ry + 1 ≥ 1` elements). -/
def mkScenario (fv rate blended : ℚ) (ry : Nat) : WithdrawalScenario :=
  let annual_withdrawal := fv * rate
  let portfolio_values := trajectory fv annual_withdrawal blended ry
  { annual_withdrawal := annual_withdrawal
    monthly_withdrawal := annual_withdrawal / 12
    portfolio_values := portfolio_values
    final_value := (portfolio_values.getLast?).getD 0
    blended_rate := blended }

/-- `calculate_withdrawal_scenarios`: computes the blended rate once, then
for each requested rate stores a scenario under the key `f"{rate:.1%}"` in
the `scenarios` dict. -/
def calculate_withdrawal_scenarios (fv : ℚ) (withdrawal_rates : List ℚ)
    (retirement_years : Nat) (rps : List RetirementAsset) :
    List (String × WithdrawalScenario) :=
  let blended := blendedRate rps
  withdrawal_rates.foldl
    (fun acc rate =>
      dictInsert (fmtPercent1 rate) (mkScenario fv rate blended retirement_years) acc)
    []

/-- The sum `total_initial` computed in `main` before the weighted rate. -/
def totalInitial (ps : List Portfolio) : ℚ :=
  (ps.map (fun p => p.initial)).sum

/-- The weighted average growth rate computed in `main`:
`sum(p["initial"] * p["rate"]) / total_initial if total_initial > 0 else 0`
— the division is short-circuited when the total is not positive. -/
def weighted_rate (ps : List Portfolio) : ℚ :=
  if totalInitial ps > 0 then
    (ps.map (fun p => p.initial * p.rate)).sum / totalInitial ps
  else 0

/-- JSON values, as produced by `json.dumps` from the config dict. -/
inductive Json where
  | str : String → Json
  | num : ℚ → Json
  | arr : List Json → Json
  | obj : List (String × Json) → Json
deriving Repr

/-- The JSON object for one portfolio dict inside the `portfolios` array. -/
def portfolioToJson (p : Portfolio) : Json :=
  Json.obj [("name", Json.str p.name), ("initial", Json.num p.initial),
            ("annual", Json.num p.annual), ("rate", Json.num p.rate)]

/-- `save_portfolio_config`: the serialized config document,
`{"portfolios": [...], "timestamp": <ISO-8601 string>}`. -/
def save_portfolio_config (ps : List Portfolio) (timestamp : String) : Json :=
  Json.obj [("portfolios", Json.arr (ps.map portfolioToJson)),
            ("timestamp", Json.str timestamp)]

/-- Key lookup in a JSON object's field list. -/
def jsonLookup (k : String) : List (String × Json) → Option Json
  | [] => none
  | (k', v) :: rest => if k' = k then some v else jsonLookup k rest

/-- Read one portfolio component back from its JSON object. -/
def portfolioFromJson : Json → Option Portfolio
  | Json.obj fields =>
    match jsonLookup "name" fields, jsonLookup "initial" fields,
          jsonLookup "annual" fields, jsonLookup "rate" fields with
    | some (Json.str n), some (Json.num i), some (Json.num a), some (Json.num r) =>
      some { name := n, initial := i, annual := a, rate := r }
    | _, _, _, _ => none
  | _ => none

/-- Read a list of portfolio components back from a JSON array's elements. -/
def portfoliosFromJson : List Json → Option (List Portfolio)
  | [] => some []
  | j :: rest =>
    match portfolioFromJson j, portfoliosFromJson rest with
    | some p, some ps => some (p :: ps)
    | _, _ => none

/-- Extract the `portfolios` array of an exported config document as
component input. -/
def configPortfolios : Json → Option (List Portfolio)
  | Json.obj fields =>
    match jsonLookup "portfolios" fields with
    | some (Json.arr js) => portfoliosFromJson js
    | _ => none
  | _ => none

/-- Modelled from the claim's words (NOT from the source), for the
refinement comparison of the drawdown recurrence: the trajectory value
where each year's clamped value is carried forward into the next year:
`e 0 = s`, `e (y+1) = max 0 ((e y - w) * (1 + r))`. -/
def specClampedValue (s w r : ℚ) : Nat → ℚ
  | 0 => s
  | y + 1 => max 0 ((specClampedValue s w r y - w) * (1 + r))

theorem portfolioOk_iff (p : Portfolio) :
    portfolioOk p = true ↔
      (pyBlank p.name = false ∧ 0 ≤ p.initial ∧ 0 ≤ p.annual ∧ 0 ≤ p.rate ∧
        ¬(p.initial = 0 ∧ p.annual = 0)) := by
  unfold portfolioOk
  split_ifs with h1 h2 h3
  · simp [h1]
  · simp only [false_iff]
    rintro ⟨-, hi, ha, hr, -⟩
    rcases h2 with h | h | h <;> linarith
  · simp only [false_iff]
    rintro ⟨-, -, -, -, hz⟩
    exact hz h3
  · push_neg at h2
    simp only [true_iff]
    exact ⟨Bool.eq_false_iff.mpr h1, h2.1, h2.2.1, h2.2.2, h3⟩

theorem retirementAssetOk_iff (a : RetirementAsset) :
    retirementAssetOk a = true ↔
      (pyBlank a.name = false ∧ 0 ≤ a.rate ∧ 0 < a.allocation) := by
  unfold retirementAssetOk
  split_ifs with h1 h2 h3
  · simp [h1]
  · simp only [false_iff]
    rintro ⟨-, hr, ha⟩
    rcases h2 with h | h <;> linarith
  · simp only [false_iff]
    rintro ⟨-, -, ha⟩
    exact absurd h3 (ne_of_gt ha)
  · push_neg at h2
    simp only [true_iff]
    exact ⟨Bool.eq_false_iff.mpr h1, h2.2, lt_of_le_of_ne h2.1 (Ne.symm h3)⟩

/-- C3: `validate_portfolios` accepts the EMPTY component list: the `for`
loop body never runs, so the function falls through to `return True`.
This refutes the claim's conjunct that the component set must be
non-empty (the spec says the empty set is invalid). -/
theorem c3_counterexample : validate_portfolios [] = true := rfl

/-- C3 (amended): `validate_portfolios(components)` returns true iff every
component has a non-blank name, non-negative initial, annual contribution
and growth rate, and not (initial == 0 and annual == 0) — with no
non-emptiness requirement, so the empty component set is (vacuously)
valid. -/
theorem c3_validate_portfolios_amended (ps : List Portfolio) :
    validate_portfolios ps = true ↔
      ∀ p ∈ ps, pyBlank p.name = false ∧ 0 ≤ p.initial ∧ 0 ≤ p.annual ∧
        0 ≤ p.rate ∧ ¬(p.initial = 0 ∧ p.annual = 0) := by
  unfold validate_portfolios
  rw [List.all_eq_true]
  constructor
  · intro h p hp
    exact (portfolioOk_iff p).mp (h p hp)
  · intro h p hp
    exact (portfolioOk_iff p).mpr (h p hp)

/-- C3 witness: a concrete one-component list on which the amended
characterisation evaluates. -/
theorem c3_witness :
    validate_portfolios [{ name := "Primary Portfolio", initial := 50000,
                           annual := 10000, rate := 0 }] = true :=
  (c3_validate_portfolios_amended _).mpr (by decide)

/-- C5: `validate_retirement_portfolios(assets)` returns true iff the asset
set is non-empty, the sum of allocations is within 0.01 of 1.0, every
rate is non-negative, every allocation is strictly positive, and every
name is non-blank; a set whose allocations sum to 0.995 is valid and one
summing to 0.98 is invalid. -/
theorem c5_validate_retirement_portfolios :
    (∀ as : List RetirementAsset,
      validate_retirement_portfolios as = true ↔
        (as ≠ [] ∧ |(as.map (fun p => p.allocation)).sum - 1| ≤ 1/100 ∧
          ∀ a ∈ as, pyBlank a.name = false ∧ 0 ≤ a.rate ∧ 0 < a.allocation)) ∧
    validate_retirement_portfolios
      [{ name := "Bonds", allocation := 995/2000, rate := 3/100 },
       { name := "Stocks", allocation := 995/2000, rate := 6/100 }] = true ∧
    validate_retirement_portfolios
      [{ name := "Bonds", allocation := 49/100, rate := 3/100 },
       { name := "Stocks", allocation := 49/100, rate := 6/100 }] = false := by
  refine ⟨?_,
    by
      norm_num [validate_retirement_portfolios, retirementAssetOk, pyBlank,
                abs_le]
      decide,
    by
      norm_num [validate_retirement_portfolios, retirementAssetOk, pyBlank,
                abs_le]⟩
  intro as
  unfold validate_retirement_portfolios
  split_ifs with h1 h2
  · simp only [false_iff]
    rintro ⟨hne, -, -⟩
    cases as with
    | nil => exact hne rfl
    | cons a rest => simp [List.isEmpty] at h1
  · simp only [false_iff]
    rintro ⟨-, htol, -⟩
    exact absurd h2 (not_lt.mpr htol)
  · rw [List.all_eq_true]
    constructor
    · intro h
      refine ⟨fun he => ?_, not_lt.mp h2, fun a ha =>
        (retirementAssetOk_iff a).mp (h a ha)⟩
      subst he
      exact h1 rfl
    · rintro ⟨-, -, h⟩
      intro a ha
      exact (retirementAssetOk_iff a).mpr (h a ha)

theorem rawValue_nonpos_succ {s w r : ℚ} (hw : 0 ≤ w) (hr : 0 ≤ r) {y : Nat}
    (h : rawValue s w r y ≤ 0) : rawValue s w r (y + 1) ≤ 0 := by
  show (rawValue s w r y - w) * (1 + r) ≤ 0
  have hprod := mul_nonneg (by linarith : (0:ℚ) ≤ w - rawValue s w r y)
    (by linarith : (0:ℚ) ≤ 1 + r)
  nlinarith [hprod]

theorem rawValue_nonpos_of_le {s w r : ℚ} (hw : 0 ≤ w) (hr : 0 ≤ r)
    {y₁ y₂ : Nat} (h12 : y₁ ≤ y₂) (h : rawValue s w r y₁ ≤ 0) :
    rawValue s w r y₂ ≤ 0 := by
  induction y₂, h12 using Nat.le_induction with
  | base => exact h
  | succ n hn ih => exact rawValue_nonpos_succ hw hr ih

theorem rawValue_zero (r : ℚ) (y : Nat) : rawValue 0 0 r y = 0 := by
  induction y with
  | zero => rfl
  | succ n ih =>
    show (rawValue 0 0 r n - 0) * (1 + r) = 0
    rw [ih]
    ring

theorem specClampedValue_eq {s w r : ℚ} (hw : 0 ≤ w) (hr : 0 ≤ r) (y : Nat) :
    specClampedValue s w r y =
      if y = 0 then s else max 0 (rawValue s w r y) := by
  induction y with
  | zero => rfl
  | succ n ih =>
    rw [if_neg (Nat.succ_ne_zero n)]
    show max 0 ((specClampedValue s w r n - w) * (1 + r)) =
      max 0 (rawValue s w r (n + 1))
    by_cases hn : n = 0
    · subst hn
      rfl
    · rw [ih, if_neg hn]
      rcases le_or_lt 0 (rawValue s w r n) with hpos | hneg
      · rw [max_eq_right hpos]
        rfl
      · have hle : rawValue s w r n ≤ 0 := le_of_lt hneg
        have h2 : rawValue s w r (n + 1) ≤ 0 := rawValue_nonpos_succ hw hr hle
        have h3 : (max 0 (rawValue s w r n) - w) * (1 + r) ≤ 0 := by
          rw [max_eq_left hle]
          have hprod := mul_nonneg hw (by linarith : (0:ℚ) ≤ 1 + r)
          nlinarith [hprod]
        rw [max_eq_left h3, max_eq_left h2]

theorem trajectory_getElem (s w r : ℚ) (years y : Nat) (h : y ≤ years) :
    (trajectory s w r years)[y]? =
      some (if y = 0 then s else max 0 (rawValue s w r y)) := by
  unfold trajectory
  rw [List.getElem?_map, List.getElem?_range (by omega)]
  rfl

/-- C1: the source carries the UNCLAMPED balance forward: `current_value`
is never clamped, only the appended trajectory entry is.  When
`annual_withdrawal = starting_value * withdrawal_rate` is negative (a
negative starting value with a positive withdrawal rate), the code's
trajectory diverges from the claim's clamped-carry recurrence: at
`starting_value = -100`, `withdrawal_rate = 1/2`, `blended_rate = 0`,
`years = 2`, the code's year-2 entry is 0 while the claim's recurrence
gives 50. -/
theorem c1_counterexample :
    (trajectory (-100) ((-100) * (1/2)) 0 2)[2]? = some 0 ∧
    specClampedValue (-100) ((-100) * (1/2)) 0 2 = 50 ∧ (0 : ℚ) ≠ 50 := by
  refine ⟨?_, ?_, by norm_num⟩
  · rw [trajectory_getElem _ _ _ 2 2 (le_refl 2)]
    have hraw1 : rawValue (-100) ((-100) * (1/2)) 0 1 = -50 := by
      show ((-100 : ℚ) - (-100) * (1/2)) * (1 + 0) = -50
      norm_num
    have hraw2 : rawValue (-100) ((-100) * (1/2)) 0 2 = 0 := by
      show (rawValue (-100) ((-100) * (1/2)) 0 1 - (-100) * (1/2)) * (1 + 0) = 0
      rw [hraw1]
      norm_num
    rw [if_neg (by omega : (2 : Nat) ≠ 0), hraw2, max_self]
  · have e1 : specClampedValue (-100) ((-100) * (1/2)) 0 1 = 0 := by
      show max 0 (((-100 : ℚ) - (-100) * (1/2)) * (1 + 0)) = 0
      norm_num [max_def]
    show max 0 ((specClampedValue (-100) ((-100) * (1/2)) 0 1 - (-100) * (1/2))
      * (1 + 0)) = 50
    rw [e1]
    norm_num [max_def]

/-- C1 (amended): for every starting_value ≥ 0 (together with
blended_rate ≥ 0, withdrawal_rate ≥ 0, integer years ≥ 0) the drawdown
trajectory has length years + 1, its year-0 entry is the starting value
unclamped, every entry equals the claim's clamped-carry recurrence (the
unclamped and clamped carries coincide when the withdrawal is
non-negative), and once an entry is 0 every later entry is 0. -/
theorem c1_drawdown_amended (s br wr : ℚ) (years : Nat)
    (hs : 0 ≤ s) (hbr : 0 ≤ br) (hwr : 0 ≤ wr) :
    (trajectory s (s * wr) br years).length = years + 1 ∧
    (trajectory s (s * wr) br years)[0]? = some s ∧
    (∀ y, y ≤ years →
      (trajectory s (s * wr) br years)[y]? =
        some (specClampedValue s (s * wr) br y)) ∧
    (∀ y₁ y₂, y₁ ≤ y₂ → y₂ ≤ years →
      (trajectory s (s * wr) br years)[y₁]? = some 0 →
      (trajectory s (s * wr) br years)[y₂]? = some 0) := by
  have hw : 0 ≤ s * wr := mul_nonneg hs hwr
  refine ⟨by simp [trajectory], ?_, ?_, ?_⟩
  · rw [trajectory_getElem s (s * wr) br years 0 (Nat.zero_le _)]
    rfl
  · intro y hy
    rw [trajectory_getElem s (s * wr) br years y hy,
      specClampedValue_eq hw hbr y]
  · intro y₁ y₂ h12 hy2 hzero
    rw [trajectory_getElem s (s * wr) br years y₁ (le_trans h12 hy2)] at hzero
    rw [trajectory_getElem s (s * wr) br years y₂ hy2]
    have hentry : (if y₁ = 0 then s else max 0 (rawValue s (s * wr) br y₁)) = 0 :=
      Option.some_inj.mp hzero
    by_cases h1 : y₁ = 0
    · rw [if_pos h1] at hentry
      subst hentry
      have hz : ∀ y, rawValue 0 (0 * wr) br y = 0 := by
        intro y
        rw [zero_mul]
        exact rawValue_zero br y

      by_cases hy20 : y₂ = 0
      · rw [if_pos hy20]
      · rw [if_neg hy20, hz y₂, max_self]
    · rw [if_neg h1] at hentry
      have hle : rawValue s (s * wr) br y₁ ≤ 0 := by
        by_contra hpos
        push_neg at hpos
        rw [max_eq_right (le_of_lt hpos)] at hentry
        exact (ne_of_gt hpos) hentry
      have h2le : rawValue s (s * wr) br y₂ ≤ 0 :=
        rawValue_nonpos_of_le hw hbr h12 hle
      have hy20 : y₂ ≠ 0 := by omega
      rw [if_neg hy20, max_eq_left h2le]

/-- C1 witness: the amended drawdown characterisation applied at a
concrete non-negative input. -/
theorem c1_witness : (trajectory 100 (100 * 0) 0 1).length = 1 + 1 :=
  (c1_drawdown_amended 100 0 0 1 (by norm_num) (le_refl 0) (le_refl 0)).1

theorem componentValue_eq_iterGrow (p : Portfolio) (y : Nat) :
    componentValue p y = iterGrow p y := by
  cases y with
  | zero => rfl
  | succ n => simp [componentValue]

theorem growth_getElem (ps : List Portfolio) (years y : Nat) (h : y ≤ years) :
    (calculate_portfolio_growth ps years)[y]? =
      some { year := y, values := ps.map (fun p => componentValue p y),
             total := (ps.map (fun p => componentValue p y)).sum } := by
  unfold calculate_portfolio_growth
  rw [List.getElem?_map, List.getElem?_range (by omega)]
  rfl

theorem iterGrow_nonneg (p : Portfolio) (h0 : 0 ≤ p.initial)
    (ha : 0 ≤ p.annual) (hr : 0 ≤ p.rate) (y : Nat) : 0 ≤ iterGrow p y := by
  induction y with
  | zero => exact h0
  | succ n ih =>
    have h1 : (0:ℚ) ≤ iterGrow p n + p.annual := by linarith
    have h2 : (0:ℚ) ≤ 1 + p.rate := by linarith
    simpa [iterGrow] using mul_nonneg h1 h2

theorem iterGrow_le_succ (p : Portfolio) (h0 : 0 ≤ p.initial)
    (ha : 0 ≤ p.annual) (hr : 0 ≤ p.rate) (y : Nat) :
    iterGrow p y ≤ iterGrow p (y + 1) := by
  have hv := iterGrow_nonneg p h0 ha hr y
  have hkey : iterGrow p y ≤ (iterGrow p y + p.annual) * (1 + p.rate) := by
    nlinarith
  simpa [iterGrow] using hkey

/-- C2: `calculate_portfolio_growth(components, years)` returns exactly
`years + 1` points ordered year 0 through `years`; each component's
year-0 value is its `initial`, each component's value at year `y + 1`
equals `(previous value + annual_contribution) * (1 + growth_rate)`, each
point's total is the sum of the component values at that year, and
projecting over 0 years gives exactly one point totalling the sum of the
initial values. -/
theorem c2_accumulation_projection (ps : List Portfolio) (years : Nat) :
    (calculate_portfolio_growth ps years).length = years + 1 ∧
    (∀ y, y ≤ years →
      (calculate_portfolio_growth ps years)[y]? =
        some { year := y, values := ps.map (fun p => componentValue p y),
               total := (ps.map (fun p => componentValue p y)).sum }) ∧
    (∀ p : Portfolio, componentValue p 0 = p.initial) ∧
    (∀ (p : Portfolio) (y : Nat),
      componentValue p (y + 1) =
        (componentValue p y + p.annual) * (1 + p.rate)) ∧
    calculate_portfolio_growth ps 0 =
      [{ year := 0, values := ps.map (fun p => p.initial),
         total := (ps.map (fun p => p.initial)).sum }] := by
  refine ⟨?_, fun y hy => growth_getElem ps years y hy, fun p => rfl,
    fun p y => ?_, ?_⟩
  · simp [calculate_portfolio_growth]
  · rw [componentValue_eq_iterGrow, componentValue_eq_iterGrow]
    rfl
  · rfl

/-- C2 witness: the characterisation applied at a concrete component and
horizon; its point list has the promised length. -/
theorem c2_witness :
    (calculate_portfolio_growth
      [{ name := "Primary Portfolio", initial := 50000, annual := 10000,
         rate := 0 }] 1).length = 1 + 1 :=
  (c2_accumulation_projection _ 1).1

/-- C7: when every component has non-negative initial value, annual
contribution and growth rate, the `Total` of consecutive projection
points never decreases. -/
theorem c7_total_monotone (ps : List Portfolio) (years : Nat)
    (hps : ∀ p ∈ ps, 0 ≤ p.initial ∧ 0 ≤ p.annual ∧ 0 ≤ p.rate)
    (y : Nat) (hy : y + 1 ≤ years) :
    ∃ pt₁ pt₂,
      (calculate_portfolio_growth ps years)[y]? = some pt₁ ∧
      (calculate_portfolio_growth ps years)[y + 1]? = some pt₂ ∧
      pt₁.total ≤ pt₂.total := by
  refine ⟨_, _, growth_getElem ps years y (by omega),
    growth_getElem ps years (y + 1) hy, ?_⟩
  apply List.sum_le_sum
  intro p hp
  obtain ⟨h0, ha, hr⟩ := hps p hp
  rw [componentValue_eq_iterGrow, componentValue_eq_iterGrow]
  exact iterGrow_le_succ p h0 ha hr y

/-- C7 witness: monotonicity applied at a concrete component set. -/
theorem c7_witness :
    ∃ pt₁ pt₂,
      (calculate_portfolio_growth
        [{ name := "Primary Portfolio", initial := 50000, annual := 10000,
           rate := 0 }] 2)[0]? = some pt₁ ∧
      (calculate_portfolio_growth
        [{ name := "Primary Portfolio", initial := 50000, annual := 10000,
           rate := 0 }] 2)[0 + 1]? = some pt₂ ∧
      pt₁.total ≤ pt₂.total :=
  c7_total_monotone _ 2 (by decide) 0 (by omega)

/-- C5 witness: the characterisation applied to a concrete valid set. -/
theorem c5_witness :
    validate_retirement_portfolios
      [{ name := "Conservative Bonds", allocation := 3/5, rate := 3/100 },
       { name := "Dividend Stocks", allocation := 2/5, rate := 6/100 }] = true :=
  (c5_validate_retirement_portfolios.1 _).mpr
    (by
      norm_num [pyBlank, abs_le]
      decide)

/-- C8: the weighted initial growth rate is short-circuited to 0 when the
total initial value is 0 — no division is performed. -/
theorem c8_weighted_rate_zero_total (ps : List Portfolio)
    (h : totalInitial ps = 0) : weighted_rate ps = 0 := by
  unfold weighted_rate
  rw [h]
  simp

/-- C8 witness: a component list whose initial values sum to 0. -/
theorem c8_witness :
    weighted_rate [{ name := "Empty", initial := 0, annual := 5000,
                     rate := 1 }] = 0 :=
  c8_weighted_rate_zero_total _ (by norm_num [totalInitial])

theorem portfolioFromJson_toJson (p : Portfolio) :
    portfolioFromJson (portfolioToJson p) = some p := rfl

theorem portfoliosFromJson_map (ps : List Portfolio) :
    portfoliosFromJson (ps.map portfolioToJson) = some ps := by
  induction ps with
  | nil => rfl
  | cons p rest ih =>
    show portfoliosFromJson (portfolioToJson p :: rest.map portfolioToJson) =
      some (p :: rest)
    simp [portfoliosFromJson, portfolioFromJson_toJson, ih]

/-- C9: the exported configuration is a JSON object with keys `portfolios`
(an array of the component objects `{name, initial, annual, rate}`) and
`timestamp`, and reading the `portfolios` array back as component input
reproduces the original list, hence identical `calculate_portfolio_growth`
output. -/
theorem c9_config_roundtrip (ps : List Portfolio) (timestamp : String)
    (years : Nat) :
    save_portfolio_config ps timestamp =
      Json.obj [("portfolios", Json.arr (ps.map portfolioToJson)),
                ("timestamp", Json.str timestamp)] ∧
    configPortfolios (save_portfolio_config ps timestamp) = some ps ∧
    (configPortfolios (save_portfolio_config ps timestamp)).map
        (fun qs => calculate_portfolio_growth qs years) =
      some (calculate_portfolio_growth ps years) := by
  have hdec : configPortfolios (save_portfolio_config ps timestamp) = some ps := by
    show configPortfolios (Json.obj [("portfolios",
      Json.arr (ps.map portfolioToJson)), ("timestamp", Json.str timestamp)]) =
      some ps
    simp [configPortfolios, jsonLookup, portfoliosFromJson_map]
  refine ⟨rfl, hdec, ?_⟩
  rw [hdec]
  rfl

theorem mem_dictInsert {α : Type} {k : String} {v : α}
    {l : List (String × α)} {kv : String × α}
    (h : kv ∈ dictInsert k v l) : kv = (k, v) ∨ kv ∈ l := by
  induction l with
  | nil =>
    simp [dictInsert] at h
    exact Or.inl h
  | cons hd tl ih =>
    obtain ⟨k', v'⟩ := hd
    by_cases hk : k' = k
    · rw [dictInsert, if_pos hk] at h
      rcases List.mem_cons.mp h with h | h
      · exact Or.inl h
      · exact Or.inr (List.mem_cons_of_mem _ h)
    · rw [dictInsert, if_neg hk] at h
      rcases List.mem_cons.mp h with h | h
      · exact Or.inr (h ▸ List.mem_cons_self _ _)
      · rcases ih h with h' | h'
        · exact Or.inl h'
        · exact Or.inr (List.mem_cons_of_mem _ h')

theorem mem_scenarios_foldl (fv blended : ℚ) (ry : Nat) :
    ∀ (rates : List ℚ) (acc : List (String × WithdrawalScenario))
      (kv : String × WithdrawalScenario),
      kv ∈ rates.foldl (fun acc rate =>
        dictInsert (fmtPercent1 rate) (mkScenario fv rate blended ry) acc) acc →
      kv ∈ acc ∨ ∃ r ∈ rates, kv = (fmtPercent1 r, mkScenario fv r blended ry) := by
  intro rates
  induction rates with
  | nil =>
    intro acc kv h
    exact Or.inl h
  | cons r rest ih =>
    intro acc kv h
    rcases ih _ kv h with hacc | ⟨r', hr', hkv⟩
    · rcases mem_dictInsert hacc with heq | hmem
      · exact Or.inr ⟨r, List.mem_cons_self _ _, heq⟩
      · exact Or.inl hmem
    · exact Or.inr ⟨r', List.mem_cons_of_mem _ hr', hkv⟩

theorem scenarios_pair_overwrite (fv : ℚ) (ry : Nat)
    (rps : List RetirementAsset) (r₁ r₂ : ℚ)
    (hlabel : fmtPercent1 r₁ = fmtPercent1 r₂) :
    calculate_withdrawal_scenarios fv [r₁, r₂] ry rps =
      [(fmtPercent1 r₂, mkScenario fv r₂ (blendedRate rps) ry)] := by
  show dictInsert (fmtPercent1 r₂) (mkScenario fv r₂ (blendedRate rps) ry)
      [(fmtPercent1 r₁, mkScenario fv r₁ (blendedRate rps) ry)] =
    [(fmtPercent1 r₂, mkScenario fv r₂ (blendedRate rps) ry)]
  rw [dictInsert, if_pos hlabel]

/-- C4: every scenario in the aggregator's result comes from a requested
rate `r` and carries `annual_withdrawal = starting_value * r` (the same
constant subtracted in every retirement year of the balance recurrence),
`monthly_withdrawal = annual_withdrawal / 12`, `final_value` equal to the
last trajectory point, and `blended_rate` equal to
Σ(allocation × rate), computed once per call and identical across all
scenarios. -/
theorem c4_scenario_fields (fv : ℚ) (rates : List ℚ) (ry : Nat)
    (rps : List RetirementAsset) (kv : String × WithdrawalScenario)
    (h : kv ∈ calculate_withdrawal_scenarios fv rates ry rps) :
    ∃ r ∈ rates,
      kv = (fmtPercent1 r, mkScenario fv r (blendedRate rps) ry) ∧
      kv.2.annual_withdrawal = fv * r ∧
      kv.2.monthly_withdrawal = kv.2.annual_withdrawal / 12 ∧
      kv.2.portfolio_values = trajectory fv (fv * r) (blendedRate rps) ry ∧
      kv.2.portfolio_values.length = ry + 1 ∧
      kv.2.final_value = (kv.2.portfolio_values.getLast?).getD 0 ∧
      kv.2.blended_rate = blendedRate rps ∧
      blendedRate rps = (rps.map (fun p => p.allocation * p.rate)).sum ∧
      (∀ y, rawValue fv (fv * r) (blendedRate rps) (y + 1) =
        (rawValue fv (fv * r) (blendedRate rps) y - fv * r)
          * (1 + blendedRate rps)) := by
  have h' : kv ∈ rates.foldl (fun acc rate =>
      dictInsert (fmtPercent1 rate)
        (mkScenario fv rate (blendedRate rps) ry) acc) [] := h
  rcases mem_scenarios_foldl fv (blendedRate rps) ry rates [] kv h' with
    hc | ⟨r, hr, hkv⟩
  · simp at hc
  · subst hkv
    refine ⟨r, hr, rfl, rfl, rfl, rfl, ?_, rfl, rfl, rfl, fun y => rfl⟩
    simp [mkScenario, trajectory]

/-- C4 witness: the field characterisation at a concrete scenario set. -/
theorem c4_witness :
    ∃ r ∈ ([0] : List ℚ),
      (fmtPercent1 0, mkScenario 100 0 (blendedRate []) 0) =
        (fmtPercent1 r, mkScenario 100 r (blendedRate []) 0) ∧
      (fmtPercent1 0, mkScenario 100 0 (blendedRate []) 0).2.annual_withdrawal =
        100 * r ∧
      (fmtPercent1 0, mkScenario 100 0 (blendedRate []) 0).2.monthly_withdrawal =
        (fmtPercent1 0, mkScenario 100 0 (blendedRate []) 0).2.annual_withdrawal
          / 12 ∧
      (fmtPercent1 0, mkScenario 100 0 (blendedRate []) 0).2.portfolio_values =
        trajectory 100 (100 * r) (blendedRate []) 0 ∧
      (fmtPercent1 0,
        mkScenario 100 0 (blendedRate []) 0).2.portfolio_values.length = 0 + 1 ∧
      (fmtPercent1 0, mkScenario 100 0 (blendedRate []) 0).2.final_value =
        ((fmtPercent1 0,
          mkScenario 100 0 (blendedRate []) 0).2.portfolio_values.getLast?).getD
          0 ∧
      (fmtPercent1 0, mkScenario 100 0 (blendedRate []) 0).2.blended_rate =
        blendedRate [] ∧
      blendedRate [] =
        (([] : List RetirementAsset).map (fun p => p.allocation * p.rate)).sum ∧
      (∀ y, rawValue 100 (100 * r) (blendedRate []) (y + 1) =
        (rawValue 100 (100 * r) (blendedRate []) y - 100 * r)
          * (1 + blendedRate [])) :=
  c4_scenario_fields 100 [0] 0 []
    (fmtPercent1 0, mkScenario 100 0 (blendedRate []) 0)
    (List.mem_singleton_self _)

/-- C6: an empty withdrawal-rate set yields an empty result mapping, and
two rates with the same label yield a single mapping entry holding the
later rate's scenario. -/
theorem c6_empty_and_duplicate (fv : ℚ) (ry : Nat)
    (rps : List RetirementAsset) (r₁ r₂ : ℚ)
    (hlabel : fmtPercent1 r₁ = fmtPercent1 r₂) :
    calculate_withdrawal_scenarios fv [] ry rps = [] ∧
    calculate_withdrawal_scenarios fv [r₁, r₂] ry rps =
      [(fmtPercent1 r₂, mkScenario fv r₂ (blendedRate rps) ry)] :=
  ⟨rfl, scenarios_pair_overwrite fv ry rps r₁ r₂ hlabel⟩

/-- C6 witness: the same rate requested twice at a concrete input. -/
theorem c6_witness :
    calculate_withdrawal_scenarios 100 [] 0 [] = [] ∧
    calculate_withdrawal_scenarios 100 [0, 0] 0 [] =
      [(fmtPercent1 0, mkScenario 100 0 (blendedRate []) 0)] :=
  c6_empty_and_duplicate 100 0 [] 0 0 rfl

/-- C10: scenario keys are the withdrawal rate formatted as a percentage
with one decimal place; numerically distinct rates with the same
one-decimal label (0.04 and 0.0401 are both labelled "4.0%") collapse
into a single entry holding the later rate's results. -/
theorem c10_label_collision :
    (∀ (fv : ℚ) (ry : Nat) (rps : List RetirementAsset) (r₁ r₂ : ℚ),
      r₁ ≠ r₂ → fmtPercent1 r₁ = fmtPercent1 r₂ →
      calculate_withdrawal_scenarios fv [r₁, r₂] ry rps =
        [(fmtPercent1 r₂, mkScenario fv r₂ (blendedRate rps) ry)]) ∧
    fmtPercent1 (1/25) = "4.0%" ∧
    fmtPercent1 (401/10000) = "4.0%" ∧
    ((1 : ℚ)/25 ≠ 401/10000) := by
  refine ⟨fun fv ry rps r₁ r₂ _ hlabel =>
    scenarios_pair_overwrite fv ry rps r₁ r₂ hlabel, ?_, ?_, by norm_num⟩
  · have h1 : roundHalfEven ((1:ℚ)/25 * 1000) = 40 := by
      unfold roundHalfEven
      norm_num
    unfold fmtPercent1
    rw [h1, if_neg (by norm_num : ¬ ((1:ℚ)/25 < 0))]
    decide
  · have h1 : roundHalfEven ((401:ℚ)/10000 * 1000) = 40 := by
      unfold roundHalfEven
      norm_num
    unfold fmtPercent1
    rw [h1, if_neg (by norm_num : ¬ ((401:ℚ)/10000 < 0))]
    decide

/-- C10 witness: the collapse applied to the concrete pair 0.04, 0.0401. -/
theorem c10_witness :
    calculate_withdrawal_scenarios 100 [1/25, 401/10000] 0 [] =
      [(fmtPercent1 (401/10000), mkScenario 100 (401/10000) (blendedRate []) 0)] :=
  c10_label_collision.1 100 0 [] (1/25) (401/10000) (by norm_num)
    (c10_label_collision.2.1.trans c10_label_collision.2.2.1.symm)
